import Mathlib

/-!
Shallow embedding of `mathinspector/console/console.py`: the `Console`
widget class (an `InteractiveInterpreter` bound to a text widget) and the
`Clear` helper class.

Python values are modelled by `PyVal`; the host application's registries
(`app.objects`, `app.modules`) and the interpreter's `locals` are partial
maps `String → Option PyVal`; the text widget is a list of characters,
each carrying the list of tags applied to it; and the side effects of a
call are recorded as an appended trace of `Event`s on the state.
Behaviour of code living outside this file (the `widget`, `util` and
`console.prompt` modules, the Python runtime and its standard library) is
either passed in through the `ExtFns` record of external functions, or
modelled from the spec where the doc comment says so.
-/

/-- Python values, as far as the console code inspects them: `None`,
strings, integers, module objects and exception objects.
`inspect.ismodule` and `isinstance(r, Exception)` only depend on the kind
of the value, and `str(r)` is modelled by `pyStr`. -/
inductive PyVal
  | none
  | str (s : String)
  | int (n : Int)
  | module (name : String)
  | exc (msg : String)
deriving DecidableEq

/-- Models `inspect.ismodule(value)`. -/
def PyVal.ismodule : PyVal → Bool
  | .module _ => true
  | _ => false

/-- Models `value is None`. -/
def PyVal.isNone : PyVal → Bool
  | .none => true
  | _ => false

/-- Models `isinstance(value, Exception)`. -/
def PyVal.isExc : PyVal → Bool
  | .exc _ => true
  | _ => false

/-- Models `str(r)` on the modelled values (the renderings of module and
exception objects are representative; only the rendering of strings and
of `None` is relied on by the theorems). -/
def pyStr : PyVal → String
  | .none => "None"
  | .str s => s
  | .int n => toString n
  | .module name => "<module " ++ name ++ ">"
  | .exc msg => msg

/-- Partial map with string keys modelling a Python dict. -/
abbrev PyDict := String → Option PyVal

/-- Models Python `d[key] = value`. -/
def dictInsert (d : PyDict) (key : String) (value : PyVal) : PyDict :=
  fun k => if k = key then some value else d k

/-- Models Python `del d[key]` (the `KeyError` raised on an absent key is
outside the modelled behaviour; erasure of an absent key is a no-op here). -/
def dictErase (d : PyDict) (key : String) : PyDict :=
  fun k => if k = key then Option.none else d k

/-- Models Python `d.update(e)`: every entry of `e` is copied into `d`,
overwriting any entry of `d` with the same key. -/
def dictUpdate (d e : PyDict) : PyDict :=
  fun k => match e k with
    | some v => some v
    | Option.none => d k

/-- The regex constant `RE_TRACEBACK` of console.py. -/
def RE_TRACEBACK : String := "^()(Traceback \\(most recent call last\\))"

/-- The regex constant `RE_FILEPATH` of console.py. -/
def RE_FILEPATH : String := "(File (\"(?!<).*\"))"

/-- The regex constant `RE_INPUT` of console.py. -/
def RE_INPUT : String := "(File \"(<.*>)\")"

/-- The regex constant `RE_LINE` of console.py. -/
def RE_LINE : String := "((line [0-9]*))"

/-- The regex constant `RE_IN` of console.py. -/
def RE_IN : String := "line ([0-9]*), in (.*)"

/-- One recorded side effect of a console operation.  Calls into objects
that live outside this file (the prompt, the code parser, the menu, the
external editor, the interpreter) are recorded as events. -/
inductive Event
  | promptCall
  | promptMove
  | seeEnd
  | bell
  | preprocessCall (source : String)
  | parseCall (source : String)
  | historyExtend (s : String)
  | runsourceCall (source filename : String)
  | evalCall (source : String)
  | insertEv (s : String) (tags : List String)
  | highlightCall (pattern tag : String) (idx : Nat)
  | deleteAllCall
  | setviewCall (name : String) (flag : Bool)
  | openEditorCall (path : String)
deriving DecidableEq

/-- State of the console: the interpreter namespace `locals`, the host
registries `app.objects` and `app.modules`, the text widget content (each
character with its tags), the input `buffer` of pending source lines, the
prompt's `is_on_bottom` flag, the current link `hover_range`, and the
trace of recorded side effects. -/
structure ConsoleState where
  locals : PyDict
  objects : PyDict
  modules : PyDict
  widget : List (Char × List String)
  buffer : List String
  is_on_bottom : Bool
  hover_range : Option (Nat × Nat)
  events : List Event

/-- Record one side effect. -/
def addEvent (st : ConsoleState) (e : Event) : ConsoleState :=
  { st with events := st.events ++ [e] }

/-- Modelled from the spec: `Prompt.__call__` (console/prompt.py, not under
src) re-displays the input prompt; recorded as a `promptCall` event. -/
def doPrompt (st : ConsoleState) : ConsoleState :=
  addEvent st .promptCall

/-- External behaviour the console code calls into:
`InteractiveInterpreter.runsource` (whose boolean result says whether more
input is required), the builtin `eval`, `traceback.format_exception`
(tracebacks are modelled as lists of frame descriptions) and
`os.path.abspath`.  The theorems hold for every choice of these functions. -/
structure ExtFns where
  runsource : String → String → Bool
  evalFn : String → PyDict → PyVal
  format_exception : PyVal → PyVal → List String → List String
  abspath : String → String

/-- Models `Console.setitem` (console.py lines 95-99): the `vdict` setitem
hook stores a module value in `app.modules` and any other value in
`app.objects`. -/
def Console.setitem (st : ConsoleState) (key : String) (value : PyVal) : ConsoleState :=
  if value.ismodule then { st with modules := dictInsert st.modules key value }
  else { st with objects := dictInsert st.objects key value }

/-- Models `Console.delitem` (console.py lines 101-105): the `vdict`
delitem hook removes a module value from `app.modules` and any other value
from `app.objects`. -/
def Console.delitem (st : ConsoleState) (key : String) (value : PyVal) : ConsoleState :=
  if value.ismodule then { st with modules := dictErase st.modules key }
  else { st with objects := dictErase st.objects key }

/-- Models `Console.synclocals` (console.py lines 107-113):
`self.locals.store.update(self.app.objects.store)` followed by
`self.locals.store.update(self.app.modules.store)`. -/
def Console.synclocals (st : ConsoleState) : ConsoleState :=
  { st with locals := dictUpdate (dictUpdate st.locals st.objects) st.modules }

/-- Models `Console.eval` (console.py lines 111-113): sync the namespace
with the host registries, then `eval(source, self.locals)`. -/
def Console.eval (ext : ExtFns) (st : ConsoleState) (source : String) : ConsoleState × PyVal :=
  let st1 := Console.synclocals st
  (addEvent st1 (.evalCall source), ext.evalFn source st1.locals)

/-- Models `Console.push` (console.py lines 115-129): sync the namespace,
join the buffered lines with the new line `s` into `source`, preprocess
it, re-display the prompt early when `source[:4] == "plot"`, hand `source`
to `runsource`, then either append `s + "\n"` to the buffer (more input
required) or parse the source, extend the prompt history and clear the
buffer, and finally re-display the prompt. -/
def Console.push (ext : ExtFns) (st : ConsoleState) (s : String) (filename : String) : ConsoleState :=
  let st1 := Console.synclocals st
  let source := String.join (st1.buffer ++ [s])
  let st2 := addEvent st1 (.preprocessCall source)
  let st3 := if source.take 4 = "plot" then doPrompt st2 else st2
  let did_compile := ext.runsource source filename
  let st4 := addEvent st3 (.runsourceCall source filename)
  let st5 :=
    if did_compile then { st4 with buffer := st4.buffer ++ [s ++ "\n"] }
    else
      let stE := addEvent (addEvent st4 (.parseCall source)) (.historyExtend s)
      { stE with buffer := [] }
  doPrompt st5

/-- Models `Console.clear` (console.py lines 176-178): mark the prompt as
not on the bottom, then delete all widget text from "1.0" to "end". -/
def Console.clear (st : ConsoleState) : ConsoleState :=
  let st1 := { st with is_on_bottom := false }
  { st1 with widget := [], events := st1.events ++ [.deleteAllCall] }

/-- Models `Clear.__call__` (console.py lines 239-241): clear the console,
then re-display the prompt. -/
def Clear.call (st : ConsoleState) : ConsoleState :=
  doPrompt (Console.clear st)

/-- Models `Clear.__repr__` (console.py lines 243-246): the same side
effects as `Clear.__call__`, and the returned representation string is
empty. -/
def Clear.reprCall (st : ConsoleState) : ConsoleState × String :=
  (doPrompt (Console.clear st), "")

/-- Process-wide hook slots; a slot holds either the system default, one of
the console widget's bound methods, one of the helper objects installed by
the constructor, or a string. -/
inductive Handler
  | systemDefault
  | consoleWrite
  | consoleShowtraceback
  | helpObj
  | clearObj
  | licenseObj
  | strVal (s : String)
deriving DecidableEq

/-- The process-wide slots touched (or, for the standard streams, not
touched) by the constructor: `sys.displayhook`, `sys.excepthook`, the
write methods of `sys.stdout` and `sys.stderr`, and the builtins `print`,
`help`, `clear`, `copyright`, `credits`, `license`. -/
structure SysEnv where
  displayhook : Handler
  excepthook : Handler
  stdout_write : Handler
  stderr_write : Handler
  print_builtin : Handler
  help_builtin : Handler
  clear_builtin : Handler
  copyright_builtin : Handler
  credits_builtin : Handler
  license_builtin : Handler
deriving DecidableEq

/-- Models the process-wide assignments in `Console.__init__` (console.py
lines 60-67): `sys.displayhook = self.write`, `sys.excepthook =
self.showtraceback`, and the builtin replacements for `print`, `help`,
`clear`, `copyright`, `credits` and `license`.  Nothing in the constructor
assigns `sys.stdout` or `sys.stderr`, so their slots are left unchanged. -/
def Console.init_hooks (e : SysEnv) : SysEnv :=
  { e with
    displayhook := .consoleWrite,
    excepthook := .consoleShowtraceback,
    print_builtin := .consoleWrite,
    help_builtin := .helpObj,
    clear_builtin := .clearObj,
    copyright_builtin := .strVal "Copyright (c) 2018-2021 Matt Calhoun.\nAll Rights Reserved.",
    credits_builtin := .strVal "Created by Matt Calhoun.\nSee https://mathinspector.com for more information.",
    license_builtin := .licenseObj }

/-- Text routed through a process slot reaches the console text widget
exactly when the slot holds one of the console widget's methods. -/
def rendersInConsole : Handler → Bool
  | .consoleWrite => true
  | .consoleShowtraceback => true
  | _ => false

/-- Process environment before the console is constructed: every slot
holds the system default. -/
def sysDefaultEnv : SysEnv :=
  { displayhook := .systemDefault, excepthook := .systemDefault,
    stdout_write := .systemDefault, stderr_write := .systemDefault,
    print_builtin := .systemDefault, help_builtin := .systemDefault,
    clear_builtin := .systemDefault, copyright_builtin := .systemDefault,
    credits_builtin := .systemDefault, license_builtin := .systemDefault }

/-- Sample console state used by the witnesses: one plain object `x`, one
module `np`. -/
def sampleState : ConsoleState :=
  { locals := fun _ => Option.none,
    objects := fun k => if k = "x" then some (PyVal.int 2) else Option.none,
    modules := fun k => if k = "np" then some (PyVal.module "numpy") else Option.none,
    widget := [],
    buffer := [],
    is_on_bottom := true,
    hover_range := Option.none,
    events := [] }

/-- Sample external functions used by the witnesses. -/
def extSample : ExtFns :=
  { runsource := fun _ _ => false,
    evalFn := fun _ _ => PyVal.none,
    format_exception := fun _ _ _ => [],
    abspath := fun s => s }

/-- The `tags` argument of `Console.write`: a Python tuple of tag names,
or a single string (as passed by `showtraceback`). -/
inductive TagsArg
  | tup (l : List String)
  | str (s : String)
deriving DecidableEq

/-- Models Python iteration of the tags argument (`*tags`, `list(tags)`):
iterating a tuple yields its elements, iterating a string yields its
characters as one-character strings. -/
def TagsArg.splat : TagsArg → List String
  | .tup l => l
  | .str s => s.toList.map (fun c => String.mk [c])

/-- Models handing the tags argument to the text widget's `insert`: a
tuple applies its element tags, and a plain string applies the single tag
it names. -/
def TagsArg.asTags : TagsArg → List String
  | .tup l => l
  | .str s => [s]

/-- Models `re.match(RE_TRACEBACK, str(r))`: the anchored pattern matches
exactly when the text starts with the literal traceback header. -/
def tracebackMatch (s : String) : Bool :=
  s.startsWith "Traceback (most recent call last)"

/-- Modelled from the spec: `Text.insert("end", s, tags)` (widget module,
not under src) appends the characters of `s` to the widget, each carrying
the given tags; recorded as an `insertEv` event.  The `syntax_highlight`
keyword only affects colouring and is not modelled. -/
def insertW (st : ConsoleState) (s : String) (tags : List String) : ConsoleState :=
  { st with widget := st.widget ++ s.toList.map (fun c => (c, tags)),
            events := st.events ++ [.insertEv s tags] }

/-- Models the `for r in args` loop of `Console.write` (console.py lines
138-149): the running `tags` value is threaded through the iterations; a
text matching `RE_TRACEBACK` prepends "red" to the unpacked tags; `None`
arguments are skipped entirely; exception values ring the bell and append
"red" to the tags; each remaining argument's text is inserted with the
current tags, and when the call received more than one argument a tab is
inserted after each inserted text. -/
def writeLoop (multi : Bool) : ConsoleState → TagsArg → List PyVal → ConsoleState × TagsArg
  | st, tags, [] => (st, tags)
  | st, tags, r :: rest =>
    let tags1 := if tracebackMatch (pyStr r) then TagsArg.tup ("red" :: tags.splat) else tags
    if r.isNone then writeLoop multi st tags1 rest
    else
      let st2 := if r.isExc then addEvent st .bell else st
      let tags2 := if r.isExc then TagsArg.tup (tags1.splat ++ ["red"]) else tags1
      let st3 := insertW st2 (pyStr r) tags2.asTags
      let st4 := if multi then insertW st3 "\t" [] else st3
      writeLoop multi st4 tags2 rest

/-- The events the `write` argument loop appends, computed directly from
the arguments and the running tags value (mirrors `writeLoop`). -/
def loopDelta (multi : Bool) : TagsArg → List PyVal → List Event
  | _, [] => []
  | tags, r :: rest =>
    let tags1 := if tracebackMatch (pyStr r) then TagsArg.tup ("red" :: tags.splat) else tags
    if r.isNone then loopDelta multi tags1 rest
    else
      let tags2 := if r.isExc then TagsArg.tup (tags1.splat ++ ["red"]) else tags1
      (if r.isExc then [Event.bell] else []) ++
      [Event.insertEv (pyStr r) tags2.asTags] ++
      (if multi then [Event.insertEv "\t" []] else []) ++
      loopDelta multi tags2 rest

/-- The insert-event texts among a list of events. -/
def insertTextsEv (evs : List Event) : List String :=
  evs.filterMap fun e => match e with
    | .insertEv s _ => some s
    | _ => Option.none

/-- Modelled from the spec: position of the first '"' in the text, if one
occurs before any newline (the `.` of the file-path pattern does not
cross lines). -/
def findQuoteEnd : List Char → Option Nat
  | [] => Option.none
  | c :: rest =>
    if c = '"' then some 0
    else if c = '\n' then Option.none
    else (findQuoteEnd rest).map Nat.succ

/-- Modelled from the spec: does the text start with `File "` followed by
a path whose first character is not '<'? -/
def fileQuoteHead : List Char → Bool
  | 'F' :: 'i' :: 'l' :: 'e' :: ' ' :: '"' :: c :: _ => c != '<'
  | _ => false

/-- Modelled from the spec: scan the text for occurrences of the
file-path pattern `File "p"` (path `p` not starting with '<' and
containing no quote or newline) and return the spans, as half-open
absolute offset intervals, of the quoted parts `"p"` — the clickable
link targets.  `i` is the absolute offset of the current suffix and the
fuel bounds the recursion. -/
def fileSpansFuel : Nat → List Char → Nat → List (Nat × Nat)
  | 0, _, _ => []
  | _, [], _ => []
  | fuel + 1, c :: rest, i =>
    if fileQuoteHead (c :: rest) then
      match findQuoteEnd ((c :: rest).drop 6) with
      | some j =>
        (i + 5, i + 6 + j + 1) :: fileSpansFuel fuel ((c :: rest).drop (6 + j + 1)) (i + 6 + j + 1)
      | Option.none => fileSpansFuel fuel rest (i + 1)
    else fileSpansFuel fuel rest (i + 1)

/-- Modelled from the spec: the spans of the clickable quoted file paths
in a piece of text. -/
def fileLinkSpans (cs : List Char) : List (Nat × Nat) :=
  fileSpansFuel (cs.length + 1) cs 0

/-- Does position `j` lie in one of the half-open spans? -/
def spanMem (spans : List (Nat × Nat)) (j : Nat) : Bool :=
  spans.any fun ab => decide (ab.1 ≤ j) && decide (j < ab.2)

/-- Add `tag` to every character whose position (offset by `j`) lies in
one of the spans. -/
def tagSpans (tag : String) (spans : List (Nat × Nat)) : Nat → List (Char × List String) → List (Char × List String)
  | _, [] => []
  | j, ct :: rest =>
    (if spanMem spans j then (ct.1, ct.2 ++ [tag]) else ct) :: tagSpans tag spans (j + 1) rest

/-- Modelled from the spec: `self.highlight(RE_FILEPATH, "error_file", idx)`
(widget module, not under src) tags, in the text written from index `idx`
on, the quoted path of each substring matching the file-path pattern with
"error_file", making it a clickable link. -/
def highlightErrorFile (st : ConsoleState) (idx : Nat) : ConsoleState :=
  let suf := st.widget.drop idx
  { st with
    widget := st.widget.take idx ++ tagSpans "error_file" (fileLinkSpans (suf.map Prod.fst)) 0 suf,
    events := st.events ++ [.highlightCall RE_FILEPATH "error_file" idx] }

/-- Python whitespace (the default class stripped by `str.strip` and
`str.rstrip`). -/
def pyIsSpace (c : Char) : Bool :=
  c == ' ' || c == '\t' || c == '\n' || c == '\r' || c == Char.ofNat 11 || c == Char.ofNat 12

/-- Models Python truthiness of `text.strip()`: true when some character
of the text is not whitespace. -/
def pyStripNonempty (cs : List Char) : Bool :=
  cs.any fun c => !pyIsSpace c

/-- Models Python `s.rstrip()`. -/
def pyRstrip (s : String) : String :=
  String.mk ((s.toList.reverse.dropWhile pyIsSpace).reverse)

/-- Models the part of `Console.write` after the argument loop (console.py
lines 151-162): the four `highlight` calls over the text written since
`idx` (only the "error_file" one is given widget-level semantics; the
other three are recorded as events), the trailing newline inserted when
the widget text stripped of whitespace is non-empty, `see("end")` and
`prompt.move()`.  The `try/except: pass` around the highlights has no
modelled effect since the modelled highlighting is total. -/
def writeTail (st : ConsoleState) (idx : Nat) : ConsoleState :=
  let st1 := highlightErrorFile st idx
  let st2 := addEvent st1 (.highlightCall RE_INPUT "purple" idx)
  let st3 := addEvent st2 (.highlightCall RE_LINE "blue" idx)
  let st4 := addEvent st3 (.highlightCall RE_IN "green" idx)
  let st5 := if pyStripNonempty (st4.widget.map Prod.fst) then insertW st4 "\n" [] else st4
  addEvent (addEvent st5 .seeEnd) .promptMove

/-- Models `Console.write` (console.py lines 137-162): remember the insert
index, run the argument loop (`len(args) > 1` decides whether a tab
follows each inserted text), then the tail stage. -/
def Console.write (st : ConsoleState) (args : List PyVal) (tags0 : TagsArg) : ConsoleState :=
  writeTail (writeLoop (decide (1 < args.length)) st tags0 args).1 st.widget.length

/-- Models `Console.showtraceback` (console.py lines 164-174) on the
active exception `(ty, val, frames)`: with an empty traceback the
`last_tb.tb_next` attribute access fails (modelled as `Option.none`);
otherwise the exception is formatted by `traceback.format_exception` with
the frames after the first one (`tb_next`), the joined text is
right-stripped and written tagged "red", the bell rings and the console
view is shown via `app.menu.setview("console", True)`.  The `sys.last_*`
bookkeeping is not modelled. -/
def Console.showtraceback (ext : ExtFns) (st : ConsoleState) (ty val : PyVal)
    (frames : List String) : Option ConsoleState :=
  match frames with
  | [] => Option.none
  | _ :: rest =>
    let text := pyRstrip (String.join (ext.format_exception ty val rest))
    let st1 := Console.write st [PyVal.str text] (TagsArg.str "red")
    let st2 := addEvent st1 .bell
    some (addEvent st2 (.setviewCall "console" true))

/-- Modelled from the spec: `Text.get(*hover_range)` (widget module, not
under src) returns the widget text between the two positions. -/
def widgetGet (st : ConsoleState) (a b : Nat) : String :=
  String.mk (((st.widget.map Prod.fst).drop a).take (b - a))

/-- Models Python `content[1:-1]`. -/
def stripFirstLast (s : String) : String :=
  String.mk ((s.toList.drop 1).dropLast)

/-- Models `Console._click` (console.py lines 205-209): with no hover
range the handler returns immediately; otherwise, for the "error_file"
tag, the external editor is opened at `os.path.abspath` of the hovered
text with its first and last characters (the quotes) stripped. -/
def Console.click (ext : ExtFns) (st : ConsoleState) (tag : String) : ConsoleState :=
  match st.hover_range with
  | Option.none => st
  | some r =>
    let content := widgetGet st r.1 r.2
    if tag = "error_file" then
      addEvent st (.openEditorCall (ext.abspath (stripFirstLast content)))
    else st

/-- Sample console state whose widget shows a traceback line and whose
hover range covers the quoted file path, used by the C6 witness. -/
def hoverSample : ConsoleState :=
  { sampleState with
    widget := "  File \"/tmp/a.py\", line 1, in f".toList.map (fun c => (c, [])),
    hover_range := some (7, 18) }

/-- C1 (counterexample): as stated, the claim fails.  Starting from the
default process environment, after the constructor's assignments text
written to `sys.stdout` or `sys.stderr` still goes through the system
default stream handlers, not through the console widget: the constructor
never assigns `sys.stdout` or `sys.stderr`. -/
theorem console_init_leaves_std_streams :
    rendersInConsole (Console.init_hooks sysDefaultEnv).stdout_write = false ∧
    rendersInConsole (Console.init_hooks sysDefaultEnv).stderr_write = false :=
  ⟨rfl, rfl⟩

/-- C1 (amended): constructing a Console installs the widget's `write` as
`sys.displayhook` and as the builtin `print`, and the widget's
`showtraceback` as `sys.excepthook`, so displayed expression results,
`print` output and uncaught exceptions are rendered in the console text
widget; `sys.stdout` and `sys.stderr` themselves are left unchanged, so
text written directly to the standard output or error streams is not
redirected to the widget. -/
theorem console_init_hook_assignments (e : SysEnv) :
    (Console.init_hooks e).displayhook = Handler.consoleWrite ∧
    (Console.init_hooks e).excepthook = Handler.consoleShowtraceback ∧
    (Console.init_hooks e).print_builtin = Handler.consoleWrite ∧
    (Console.init_hooks e).stdout_write = e.stdout_write ∧
    (Console.init_hooks e).stderr_write = e.stderr_write :=
  ⟨rfl, rfl, rfl, rfl, rfl⟩

/-- C2: for every call to `push(s)`, the source handed to
`runsource` is the concatenation of all buffered lines followed by `s`; if
`runsource` reports that more input is required then `s + "\n"` is
appended to the buffer, and otherwise the buffer is emptied. -/
theorem push_source_and_buffer (ext : ExtFns) (st : ConsoleState) (s filename : String) :
    Event.runsourceCall (String.join (st.buffer ++ [s])) filename
      ∈ (Console.push ext st s filename).events ∧
    (Console.push ext st s filename).buffer =
      (if ext.runsource (String.join (st.buffer ++ [s])) filename then
        st.buffer ++ [s ++ "\n"] else []) := by
  unfold Console.push
  by_cases hp : (String.join ((Console.synclocals st).buffer ++ [s])).take 4 = "plot" <;>
    cases hr : ext.runsource (String.join ((Console.synclocals st).buffer ++ [s])) filename <;>
      simp only [Console.synclocals] at hp hr ⊢ <;>
        simp [hp, hr, doPrompt, addEvent]

/-- C3: before every evaluation the console namespace is synchronized with
the host registries: both `eval(source)` and `push(s)` first replace the
interpreter's locals with the result of copying every entry of
`app.objects` and then every entry of `app.modules` into them
(`synclocals`); `eval` evaluates the source in exactly that namespace, so
every entry of `app.modules`, and every entry of `app.objects` whose key
is not overwritten by `app.modules`, is visible to the evaluated source. -/
theorem synclocals_before_eval_and_push (ext : ExtFns) (st : ConsoleState)
    (source s filename : String) :
    (Console.eval ext st source).2 =
      ext.evalFn source (dictUpdate (dictUpdate st.locals st.objects) st.modules) ∧
    (Console.eval ext st source).1.locals =
      dictUpdate (dictUpdate st.locals st.objects) st.modules ∧
    (Console.push ext st s filename).locals =
      dictUpdate (dictUpdate st.locals st.objects) st.modules ∧
    (∀ k v, st.modules k = some v →
      dictUpdate (dictUpdate st.locals st.objects) st.modules k = some v) ∧
    (∀ k v, st.modules k = Option.none → st.objects k = some v →
      dictUpdate (dictUpdate st.locals st.objects) st.modules k = some v) := by
  refine ⟨rfl, rfl, ?_, ?_, ?_⟩
  · unfold Console.push
    by_cases hp : (String.join ((Console.synclocals st).buffer ++ [s])).take 4 = "plot" <;>
      cases hr : ext.runsource (String.join ((Console.synclocals st).buffer ++ [s])) filename <;>
        simp only [Console.synclocals] at hp hr ⊢ <;>
          simp [hp, hr, doPrompt, addEvent]
  · intro k v h
    simp [dictUpdate, h]
  · intro k v h1 h2
    simp [dictUpdate, h1, h2]

/-- C3 (witness): in the sample state the module entry `np` and the object
entry `x` are both visible in the synchronized namespace. -/
theorem synclocals_before_eval_and_push_witness :
    dictUpdate (dictUpdate sampleState.locals sampleState.objects) sampleState.modules "np"
      = some (PyVal.module "numpy") ∧
    dictUpdate (dictUpdate sampleState.locals sampleState.objects) sampleState.modules "x"
      = some (PyVal.int 2) :=
  ⟨(synclocals_before_eval_and_push extSample sampleState "src" "s" "f").2.2.2.1
      "np" (PyVal.module "numpy") rfl,
   (synclocals_before_eval_and_push extSample sampleState "src" "s" "f").2.2.2.2
      "x" (PyVal.int 2) rfl rfl⟩

/-- C4: name bindings are routed to the host registries by kind: assigning
a name stores the value in `app.modules` when the value is a module and in
`app.objects` otherwise (leaving the other registry untouched), and
deleting a name removes it from `app.modules` when the value is a module
and from `app.objects` otherwise. -/
theorem setitem_delitem_routing (st : ConsoleState) (k : String) (v : PyVal) :
    (v.ismodule = true →
      (Console.setitem st k v).modules k = some v ∧
      (Console.setitem st k v).objects = st.objects ∧
      (Console.delitem st k v).modules k = Option.none ∧
      (Console.delitem st k v).objects = st.objects) ∧
    (v.ismodule = false →
      (Console.setitem st k v).objects k = some v ∧
      (Console.setitem st k v).modules = st.modules ∧
      (Console.delitem st k v).objects k = Option.none ∧
      (Console.delitem st k v).modules = st.modules) := by
  constructor <;> intro h <;>
    simp [Console.setitem, Console.delitem, dictInsert, dictErase, h]

/-- C4 (witness): assigning the module `numpy` under the name `np` stores
it in `app.modules` and leaves `app.objects` untouched; deleting the plain
value `3` under the name `x` removes it from `app.objects` and leaves
`app.modules` untouched. -/
theorem setitem_delitem_routing_witness :
    (Console.setitem sampleState "np" (PyVal.module "numpy")).modules "np"
      = some (PyVal.module "numpy") ∧
    (Console.setitem sampleState "np" (PyVal.module "numpy")).objects
      = sampleState.objects ∧
    (Console.delitem sampleState "x" (PyVal.int 3)).objects "x" = Option.none ∧
    (Console.delitem sampleState "x" (PyVal.int 3)).modules = sampleState.modules :=
  ⟨((setitem_delitem_routing sampleState "np" (PyVal.module "numpy")).1 rfl).1,
   ((setitem_delitem_routing sampleState "np" (PyVal.module "numpy")).1 rfl).2.1,
   ((setitem_delitem_routing sampleState "x" (PyVal.int 3)).2 rfl).2.2.1,
   ((setitem_delitem_routing sampleState "x" (PyVal.int 3)).2 rfl).2.2.2⟩

/-- C7: invoking `Clear.__call__` empties the console and restores the
prompt: the widget text is deleted in full, the prompt is marked as not on
the bottom, and the recorded side effects are the deletion followed by a
prompt re-display. -/
theorem clear_command_effect (st : ConsoleState) :
    (Clear.call st).widget = [] ∧
    (Clear.call st).is_on_bottom = false ∧
    (Clear.call st).events = st.events ++ [Event.deleteAllCall, Event.promptCall] := by
  refine ⟨rfl, rfl, ?_⟩
  simp [Clear.call, Console.clear, doPrompt, addEvent]

/-- C9: taking the repr of the clear-command helper has the same state
effect as calling it — `Clear.__repr__` clears the console and re-displays
the prompt exactly as `Clear.__call__` does — and it returns the empty
string. -/
theorem clear_repr_eq_call (st : ConsoleState) :
    (Clear.reprCall st).1 = Clear.call st ∧ (Clear.reprCall st).2 = "" :=
  ⟨rfl, rfl⟩

/-- C10: the events recorded by `push(s)` are, in order: the preprocessing
of the accumulated source, a prompt re-display exactly when the source
begins with the four characters "plot", the `runsource` run, the
parse/history bookkeeping when the statement completed, and a final prompt
re-display.  In particular the prompt is re-displayed before the source is
run exactly for sources beginning with "plot", and for all other sources
it is displayed only after the run. -/
theorem push_prompt_order (ext : ExtFns) (st : ConsoleState) (s filename : String) :
    (Console.push ext st s filename).events =
      st.events ++ [Event.preprocessCall (String.join (st.buffer ++ [s]))] ++
      (if (String.join (st.buffer ++ [s])).take 4 = "plot" then [Event.promptCall] else []) ++
      [Event.runsourceCall (String.join (st.buffer ++ [s])) filename] ++
      (if ext.runsource (String.join (st.buffer ++ [s])) filename then []
       else [Event.parseCall (String.join (st.buffer ++ [s])), Event.historyExtend s]) ++
      [Event.promptCall] := by
  unfold Console.push
  by_cases hp : (String.join ((Console.synclocals st).buffer ++ [s])).take 4 = "plot" <;>
    cases hr : ext.runsource (String.join ((Console.synclocals st).buffer ++ [s])) filename <;>
      simp only [Console.synclocals] at hp hr ⊢ <;>
        simp [hp, hr, doPrompt, addEvent]

/-- The argument loop of `write` only appends events, and appends exactly
the events described by `loopDelta`. -/
theorem writeLoop_events (multi : Bool) (args : List PyVal) :
    ∀ (st : ConsoleState) (tags : TagsArg),
      (writeLoop multi st tags args).1.events = st.events ++ loopDelta multi tags args := by
  induction args with
  | nil => intro st tags; simp [writeLoop, loopDelta]
  | cons r rest ih =>
    intro st tags
    simp only [writeLoop, loopDelta]
    by_cases hN : r.isNone <;> by_cases hE : r.isExc <;> cases multi <;>
      simp [hN, hE, ih, insertW, addEvent, List.append_assoc]

/-- With more than one argument, the texts inserted by the argument loop
are each non-`None` argument's rendering followed by a tab. -/
theorem insertTextsEv_loopDelta (args : List PyVal) :
    ∀ tags : TagsArg,
      insertTextsEv (loopDelta true tags args) =
        (args.filter fun r => !r.isNone).flatMap fun r => [pyStr r, "\t"] := by
  induction args with
  | nil => intro tags; simp [loopDelta, insertTextsEv]
  | cons r rest ih =>
    intro tags
    simp only [loopDelta]
    by_cases hN : r.isNone <;> by_cases hE : r.isExc <;>
      simp only [insertTextsEv] at ih ⊢ <;>
        simp [hN, hE, ih, List.filter_cons]

/-- The tail stage of `write` only appends events. -/
theorem events_mono_writeTail (st : ConsoleState) (idx : Nat) (e : Event)
    (h : e ∈ st.events) : e ∈ (writeTail st idx).events := by
  simp only [writeTail, highlightErrorFile, insertW, addEvent]
  split <;> simp [h]

/-- A `write` of a single string with the tags argument `"red"` records an
insert event for that string whose tags include "red". -/
theorem write_red_insert (st : ConsoleState) (s : String) :
    ∃ ts, Event.insertEv s ts ∈ (Console.write st [PyVal.str s] (TagsArg.str "red")).events
      ∧ "red" ∈ ts := by
  unfold Console.write
  by_cases hm : tracebackMatch s
  · refine ⟨TagsArg.asTags (TagsArg.tup ("red" :: TagsArg.splat (TagsArg.str "red"))),
      events_mono_writeTail _ _ _ ?_, by simp [TagsArg.asTags]⟩
    simp [writeLoop, insertW, addEvent, pyStr, PyVal.isNone, PyVal.isExc, hm]
  · refine ⟨TagsArg.asTags (TagsArg.str "red"), events_mono_writeTail _ _ _ ?_,
      by simp [TagsArg.asTags]⟩
    simp [writeLoop, insertW, addEvent, pyStr, PyVal.isNone, PyVal.isExc, hm]

/-- C8: for every call to `write` with more than one non-`None` argument,
the texts newly inserted by the argument loop are exactly each non-`None`
argument's text followed by a tab character — so a tab follows every
argument's text, including the last one, and `None` arguments are not
inserted at all; `write` itself is the loop followed by the tail stage
(highlights, optional trailing newline, scrolling, prompt move). -/
theorem write_tab_after_each_arg (st : ConsoleState) (args : List PyVal) (tags0 : TagsArg)
    (h : 1 < (args.filter fun r => !r.isNone).length) :
    insertTextsEv
        ((writeLoop (decide (1 < args.length)) st tags0 args).1.events.drop st.events.length) =
      ((args.filter fun r => !r.isNone).flatMap fun r => [pyStr r, "\t"]) ∧
    Console.write st args tags0 =
      writeTail (writeLoop (decide (1 < args.length)) st tags0 args).1 st.widget.length := by
  have hlen : 1 < args.length := lt_of_lt_of_le h (List.length_filter_le _ _)
  have hm : decide (1 < args.length) = true := decide_eq_true hlen
  refine ⟨?_, rfl⟩
  rw [writeLoop_events, List.drop_left, hm, insertTextsEv_loopDelta]

/-- C8 (witness): writing the arguments `"a"`, `None`, `"b"` inserts the
texts "a", tab, "b", tab — a tab after the last argument as well, and
nothing for `None`. -/
theorem write_tab_after_each_arg_witness :
    insertTextsEv
        ((writeLoop (decide (1 < ([PyVal.str "a", PyVal.none, PyVal.str "b"] : List PyVal).length))
            sampleState (TagsArg.tup []) [PyVal.str "a", PyVal.none, PyVal.str "b"]).1.events.drop
          sampleState.events.length) =
      ((([PyVal.str "a", PyVal.none, PyVal.str "b"] : List PyVal).filter
          fun r => !r.isNone).flatMap fun r => [pyStr r, "\t"]) :=
  (write_tab_after_each_arg sampleState [PyVal.str "a", PyVal.none, PyVal.str "b"]
    (TagsArg.tup []) (by decide)).1

/-- C5: every exception reaching `showtraceback` (exception type, value
and a non-empty traceback) is caught and displayed rather than re-raised:
`showtraceback` returns normally, the exception formatted by
`traceback.format_exception` with the first traceback frame omitted
(`tb_next`), joined and stripped of trailing whitespace, is written into
the widget with tags including "red", and the console view is made
visible via `setview("console", True)`. -/
theorem showtraceback_displays_red (ext : ExtFns) (st : ConsoleState) (ty val : PyVal)
    (f : String) (rest : List String) :
    ∃ st2, Console.showtraceback ext st ty val (f :: rest) = some st2 ∧
      (∃ ts, Event.insertEv (pyRstrip (String.join (ext.format_exception ty val rest))) ts
          ∈ st2.events ∧ "red" ∈ ts) ∧
      Event.setviewCall "console" true ∈ st2.events := by
  obtain ⟨ts, hmem, hred⟩ :=
    write_red_insert st (pyRstrip (String.join (ext.format_exception ty val rest)))
  refine ⟨_, rfl, ⟨ts, ?_, hred⟩, ?_⟩
  · simp only [Console.showtraceback, addEvent]
    simp [hmem]
  · simp only [Console.showtraceback, addEvent]
    simp

/-- Tagging spans preserves the length of the text. -/
theorem tagSpans_length (tag : String) (spans : List (Nat × Nat)) :
    ∀ (j : Nat) (w : List (Char × List String)), (tagSpans tag spans j w).length = w.length := by
  intro j w
  induction w generalizing j with
  | nil => simp [tagSpans]
  | cons ct rest ih => simp [tagSpans, ih]

/-- Every position lying in one of the spans receives the tag. -/
theorem tagSpans_getD (tag : String) (spans : List (Nat × Nat)) :
    ∀ (w : List (Char × List String)) (j0 j : Nat), j < w.length →
      spanMem spans (j0 + j) = true →
      tag ∈ ((tagSpans tag spans j0 w).getD j (' ', [])).2 := by
  intro w
  induction w with
  | nil => intro j0 j hj _; simp at hj
  | cons ct rest ih =>
    intro j0 j hj hs
    cases j with
    | zero =>
      rw [Nat.add_zero] at hs
      simp [tagSpans, hs]
    | succ j =>
      simp only [tagSpans, List.getD_cons_succ]
      have h1 : j0 + 1 + j = j0 + (j + 1) := by omega
      exact ih (j0 + 1) j (by simpa using hj) (by rw [h1]; exact hs)

/-- The argument loop of `write` only extends the widget. -/
theorem writeLoop_widget_le (multi : Bool) (args : List PyVal) :
    ∀ (st : ConsoleState) (tags : TagsArg),
      st.widget.length ≤ (writeLoop multi st tags args).1.widget.length := by
  induction args with
  | nil => intro st tags; simp [writeLoop]
  | cons r rest ih =>
    intro st tags
    simp only [writeLoop]
    by_cases hN : r.isNone
    · simp only [hN, if_true]
      exact ih st _
    · simp only [hN, Bool.false_eq_true, if_false]
      refine le_trans ?_ (ih _ _)
      by_cases hE : r.isExc <;> cases multi <;>
        simp [hE, insertW, addEvent]

/-- A position of the newly written region lying in a file-link span
carries the "error_file" tag after the highlighting stage. -/
theorem highlighted_getD (loopW : List (Char × List String)) (idx j : Nat)
    (hle : idx ≤ loopW.length) (hj : j < (loopW.drop idx).length)
    (hspan : spanMem (fileLinkSpans ((loopW.drop idx).map Prod.fst)) j = true) :
    "error_file" ∈
      ((loopW.take idx ++
        tagSpans "error_file" (fileLinkSpans ((loopW.drop idx).map Prod.fst)) 0
          (loopW.drop idx)).getD (idx + j) (' ', [])).2 := by
  have htake : (loopW.take idx).length = idx := by
    simp [Nat.min_eq_left hle]
  rw [List.getD_append_right _ _ _ _ (by omega)]
  have hidx : idx + j - (loopW.take idx).length = j := by rw [htake]; omega
  rw [hidx]
  exact tagSpans_getD "error_file" (fileLinkSpans ((loopW.drop idx).map Prod.fst))
    (loopW.drop idx) 0 j hj (by simpa using hspan)

/-- C6: rendered tracebacks have clickable file links.  For every `write`,
every position of the newly written text lying in a span matched by the
file-path pattern (`File "..."` with a path not starting with '<') carries
the "error_file" tag in the resulting widget; and clicking text carrying
that tag opens the external editor at the absolute path
(`os.path.abspath`) of the hovered text with its first and last
characters — the quotes — stripped. -/
theorem write_filelinks_and_click (ext : ExtFns) (st : ConsoleState) (args : List PyVal)
    (tags0 : TagsArg) (stc : ConsoleState) (a b j : Nat)
    (hj : j < ((writeLoop (decide (1 < args.length)) st tags0 args).1.widget.drop
        st.widget.length).length)
    (hspan : spanMem
        (fileLinkSpans (((writeLoop (decide (1 < args.length)) st tags0 args).1.widget.drop
            st.widget.length).map Prod.fst)) j = true)
    (hhover : stc.hover_range = some (a, b)) :
    "error_file" ∈
        ((Console.write st args tags0).widget.getD (st.widget.length + j) (' ', [])).2 ∧
    Console.click ext stc "error_file" =
      addEvent stc (Event.openEditorCall (ext.abspath (stripFirstLast (widgetGet stc a b)))) := by
  constructor
  · have hle := writeLoop_widget_le (decide (1 < args.length)) args st tags0
    show "error_file" ∈
      ((writeTail (writeLoop (decide (1 < args.length)) st tags0 args).1
          st.widget.length).widget.getD (st.widget.length + j) (' ', [])).2
    set loopSt := (writeLoop (decide (1 < args.length)) st tags0 args).1 with hLdef
    set idx := st.widget.length with hidx
    have htake : (loopSt.widget.take idx).length = idx := by
      simp [Nat.min_eq_left hle]
    have hX : (loopSt.widget.take idx ++
        tagSpans "error_file" (fileLinkSpans ((loopSt.widget.drop idx).map Prod.fst)) 0
          (loopSt.widget.drop idx)).length = idx + (loopSt.widget.drop idx).length := by
      simp [tagSpans_length, htake]
    simp only [writeTail, highlightErrorFile, addEvent, insertW]
    split
    · rw [List.getD_append _ _ _ _ (by rw [hX]; omega)]
      exact highlighted_getD loopSt.widget idx j hle hj hspan
    · exact highlighted_getD loopSt.widget idx j hle hj hspan
  · simp [Console.click, hhover]

/-- C6 (witness): writing the traceback line `  File "/tmp/a.py", line 1, in f`
into an empty console tags position 9 (inside the quoted path) with
"error_file", and clicking with the hover range over the quoted path
`"/tmp/a.py"` opens the editor at the path with the quotes stripped. -/
theorem write_filelinks_and_click_witness :
    "error_file" ∈
        ((Console.write sampleState [PyVal.str "  File \"/tmp/a.py\", line 1, in f"]
            (TagsArg.tup [])).widget.getD (sampleState.widget.length + 9) (' ', [])).2 ∧
    Console.click extSample hoverSample "error_file" =
      addEvent hoverSample
        (Event.openEditorCall (extSample.abspath (stripFirstLast (widgetGet hoverSample 7 18)))) :=
  write_filelinks_and_click extSample sampleState
    [PyVal.str "  File \"/tmp/a.py\", line 1, in f"] (TagsArg.tup []) hoverSample 7 18 9
    (by decide) (by decide) rfl
